import Mathlib

/-!
Shallow embedding of the freeze-thaw statistics core of `opened_app.py`:
the trend aggregator `calculate_statistics`, the COV variability
classifier `get_variability_category`, the pre-resolution state filter of
`main`, and (modelled from the spec, since `coordinate_matcher.py` is not
part of the sources) the location resolver `find_nearest_location`.

Numeric values (coordinates, cycle counts, means, variances) are embedded
as exact rationals; the standard deviation introduces a square root, so
standard deviations and coefficients of variation live in `ℝ` via
`Real.sqrt`.
-/

/-- One monitoring-station record of one season, as produced by the
season data provider (`load_freeze_thaw_data_by_season`): the columns
State, County, Latitude, Longitude, Total_Freeze_Thaw_Cycles,
Damaging_Freeze_Thaw_Cycles. -/
structure StationRecord where
  state : String
  county : String
  latitude : ℚ
  longitude : ℚ
  total_cycles : ℚ
  damaging_cycles : ℚ
deriving DecidableEq

/-- The resolved target location handed to `calculate_statistics`
(`location_data`): its State, County and coordinates. -/
structure LocationData where
  state : String
  county : String
  latitude : ℚ
  longitude : ℚ
deriving DecidableEq

/-- One row appended to `location_stats` inside the season loop of
`calculate_statistics`: Season, Total_Cycles, Damaging_Cycles. -/
structure SeasonStat where
  season : ℤ
  total_cycles : ℚ
  damaging_cycles : ℚ
deriving DecidableEq

/-- Python `.strip()`: remove leading and trailing whitespace.  Spelled
out over the character list so that it evaluates by kernel reduction. -/
def trimSpaces (s : String) : String :=
  String.mk
    (((s.toList.dropWhile Char.isWhitespace).reverse.dropWhile
      Char.isWhitespace).reverse)

/-- Python `.upper()`: uppercase every character. -/
def asciiUpper (s : String) : String := String.mk (s.toList.map Char.toUpper)

/-- Normalization applied to the cross-season join key in lines 59-62:
`.str.strip().str.upper()`. -/
def normKey (s : String) : String := asciiUpper (trimSpaces s)

/-- The exact-match predicate of lines 59-62: the record's normalized
State and County both equal the target's. -/
def matchesLocation (loc : LocationData) (r : StationRecord) : Bool :=
  normKey r.state == normKey loc.state && normKey r.county == normKey loc.county

/-- Squared planar distance used for duplicate resolution (lines 69-71):
`lat_diff**2 + lon_diff**2`.  The source ranks records by
`(lat_diff**2 + lon_diff**2)**0.5`; the square root is strictly monotone
on nonnegative arguments, so `np.argmin` over those square roots selects
the same index as over the squares, which keeps the selection
computable here. -/
def distSq (loc : LocationData) (r : StationRecord) : ℚ :=
  |r.latitude - loc.latitude| ^ 2 + |r.longitude - loc.longitude| ^ 2

/-- First minimizer of `f` over `x :: xs`, as `np.argmin` returns the
first index attaining the minimum. -/
def argminFirst {α : Type} (f : α → ℚ) (x : α) (xs : List α) : α :=
  xs.foldl (fun best c => if f c < f best then c else best) x

/-- Record selection of lines 64-77: from the exact matches of one
season, nothing when there are none, the single row when there is one,
and the row with closest coordinates (first minimizer, as `np.argmin`)
when there are several. -/
def pickRecord (loc : LocationData) (exact_match : List StationRecord) :
    Option StationRecord :=
  match exact_match with
  | [] => none
  | r :: rest =>
    if rest.isEmpty then some r
    else some (argminFirst (distSq loc) r rest)

/-- The season loop of `calculate_statistics` (lines 52-90).  The
provider `load_freeze_thaw_data_by_season` is modelled as returning
either an error (a raised exception, caught by the per-season
`try/except` and skipped) or the season's record list; empty data and
seasons without an exact match are skipped as in lines 55-56 and
85-86. -/
def gatherStats (loc : LocationData)
    (provider : ℤ → Except String (List StationRecord)) :
    List ℤ → List SeasonStat
  | [] => []
  | season :: rest =>
    match provider season with
    | Except.error _ => gatherStats loc provider rest
    | Except.ok season_data =>
      if season_data.isEmpty then gatherStats loc provider rest
      else
        match pickRecord loc (season_data.filter (matchesLocation loc)) with
        | none => gatherStats loc provider rest
        | some record =>
          { season := season, total_cycles := record.total_cycles,
            damaging_cycles := record.damaging_cycles } ::
            gatherStats loc provider rest

/-- Descending-by-season order used by
`sort_values('Season', ascending=False)`. -/
def seasonGE (a b : SeasonStat) : Prop := b.season ≤ a.season

instance : DecidableRel seasonGE :=
  fun a b => (inferInstance : Decidable (b.season ≤ a.season))

instance : IsTotal SeasonStat seasonGE :=
  ⟨fun a b => le_total b.season a.season⟩

instance : IsTrans SeasonStat seasonGE :=
  ⟨fun _ _ _ h1 h2 => le_trans h2 h1⟩

/-- `stats_df.sort_values('Season', ascending=False)` (line 99). -/
def sortBySeasonDesc (l : List SeasonStat) : List SeasonStat :=
  List.insertionSort seasonGE l

/-- `np.mean`: sum divided by length (exact rational arithmetic). -/
def meanQ (xs : List ℚ) : ℚ := xs.sum / xs.length

/-- The guarded average `float(np.mean(xs)) if len(xs) > 0 else 0` used
for the all-years averages (lines 106-107). -/
def avgOr0 (xs : List ℚ) : ℚ := if 0 < xs.length then meanQ xs else 0

/-- Population variance, the square of `np.std` (numpy default
`ddof=0`). -/
def popVar (xs : List ℚ) : ℚ := meanQ (xs.map fun x => (x - meanQ xs) ^ 2)

/-- `np.std`: the population standard deviation, a real number. -/
noncomputable def stdR (xs : List ℚ) : ℝ := Real.sqrt (popVar xs)

/-- The guarded coefficient of variation of lines 109-110 and 120-121:
`float(np.std(xs) / np.mean(xs) * 100) if len(xs) > 1 and np.mean(xs) > 0
else 0`. -/
noncomputable def covPct (xs : List ℚ) : ℝ :=
  if 1 < xs.length ∧ 0 < meanQ xs then stdR xs / (meanQ xs : ℝ) * 100 else 0

/-- The last-5-years window of lines 117-118:
`xs[:5] if len(xs) >= 5 else xs`. -/
def recentWindow (xs : List ℚ) : List ℚ :=
  if 5 ≤ xs.length then xs.take 5 else xs

/-- The last-5-years average of lines 113-114: `float(np.mean(xs[:5]))
if len(xs) >= 5 else float(np.mean(xs)) if len(xs) > 0 else 0`. -/
def avg5 (xs : List ℚ) : ℚ :=
  if 5 ≤ xs.length then meanQ (xs.take 5) else avgOr0 xs

/-- The dictionary returned by `calculate_statistics` (lines 123-134). -/
structure StatsResult where
  data : List SeasonStat
  total_all_avg : ℚ
  damaging_all_avg : ℚ
  total_all_cov : ℝ
  damaging_all_cov : ℝ
  total_5yr_avg : ℚ
  damaging_5yr_avg : ℚ
  total_5yr_cov : ℝ
  damaging_5yr_cov : ℝ
  years_available : ℕ

/-- `calculate_statistics` of `opened_app.py` (lines 43-137): gather one
matching record per season, return `None` when no season matched, and
otherwise sort descending by season and compute the windowed averages
and coefficients of variation. -/
noncomputable def calculate_statistics (loc : LocationData)
    (available_seasons : List ℤ)
    (provider : ℤ → Except String (List StationRecord)) :
    Option StatsResult :=
  let location_stats := gatherStats loc provider available_seasons
  if location_stats.isEmpty then none
  else
    let stats_df := sortBySeasonDesc location_stats
    let total_cycles := stats_df.map (fun s => s.total_cycles)
    let damaging_cycles := stats_df.map (fun s => s.damaging_cycles)
    some
      { data := stats_df
        total_all_avg := avgOr0 total_cycles
        damaging_all_avg := avgOr0 damaging_cycles
        total_all_cov := covPct total_cycles
        damaging_all_cov := covPct damaging_cycles
        total_5yr_avg := avg5 total_cycles
        damaging_5yr_avg := avg5 damaging_cycles
        total_5yr_cov := covPct (recentWindow total_cycles)
        damaging_5yr_cov := covPct (recentWindow damaging_cycles)
        years_available := total_cycles.length }

/-- `get_variability_category` of `opened_app.py` (lines 139-146):
`if cov < 15` Low, `elif cov <= 40` Moderate, `else` High, each paired
with its icon.  The source applies it to Python floats; it is embedded
generically over any linear ordered field. -/
def get_variability_category {α : Type} [LinearOrderedField α] (cov : α) :
    String × String :=
  if cov < 15 then ("Low", "🟢")
  else if cov ≤ 40 then ("Moderate", "🟡")
  else ("High", "🔴")

/-- C1: `get_variability_category` is a pure total mapping into three
ordered bands: Low exactly below 15, Moderate exactly on `[15, 40]`,
High exactly above 40; in particular 14.9 is Low, 15.0 and 40.0 are
Moderate, and 40.1 is High. -/
theorem C1_variability_bands :
    (∀ cov : ℚ,
      ((get_variability_category cov).1 = "Low" ↔ cov < 15) ∧
      ((get_variability_category cov).1 = "Moderate" ↔ 15 ≤ cov ∧ cov ≤ 40) ∧
      ((get_variability_category cov).1 = "High" ↔ 40 < cov)) ∧
    (get_variability_category (14.9 : ℚ)).1 = "Low" ∧
    (get_variability_category (15.0 : ℚ)).1 = "Moderate" ∧
    (get_variability_category (40.0 : ℚ)).1 = "Moderate" ∧
    (get_variability_category (40.1 : ℚ)).1 = "High" := by
  refine ⟨fun cov => ?_, ?_, ?_, ?_, ?_⟩
  · unfold get_variability_category
    split_ifs with h1 h2 <;>
      refine ⟨⟨fun _ => ?_, fun _ => ?_⟩, ⟨fun _ => ?_, fun _ => ?_⟩,
        ⟨fun _ => ?_, fun _ => ?_⟩⟩ <;>
      first
        | rfl
        | linarith
        | simp_all
  all_goals
    unfold get_variability_category
    norm_num

/-- Shorthand for the per-season series after the descending sort. -/
def sortedSeries (loc : LocationData) (seasons : List ℤ)
    (provider : ℤ → Except String (List StationRecord)) : List SeasonStat :=
  sortBySeasonDesc (gatherStats loc provider seasons)

theorem calcStats_some (loc : LocationData) (seasons : List ℤ)
    (provider : ℤ → Except String (List StationRecord))
    (hne : (gatherStats loc provider seasons).isEmpty = false) :
    calculate_statistics loc seasons provider = some
      { data := sortedSeries loc seasons provider
        total_all_avg :=
          avgOr0 ((sortedSeries loc seasons provider).map fun s => s.total_cycles)
        damaging_all_avg :=
          avgOr0 ((sortedSeries loc seasons provider).map fun s => s.damaging_cycles)
        total_all_cov :=
          covPct ((sortedSeries loc seasons provider).map fun s => s.total_cycles)
        damaging_all_cov :=
          covPct ((sortedSeries loc seasons provider).map fun s => s.damaging_cycles)
        total_5yr_avg :=
          avg5 ((sortedSeries loc seasons provider).map fun s => s.total_cycles)
        damaging_5yr_avg :=
          avg5 ((sortedSeries loc seasons provider).map fun s => s.damaging_cycles)
        total_5yr_cov :=
          covPct (recentWindow ((sortedSeries loc seasons provider).map fun s => s.total_cycles))
        damaging_5yr_cov :=
          covPct (recentWindow ((sortedSeries loc seasons provider).map fun s => s.damaging_cycles))
        years_available :=
          ((sortedSeries loc seasons provider).map fun s => s.total_cycles).length } := by
  unfold calculate_statistics sortedSeries
  simp [hne]

theorem calcStats_none_iff (loc : LocationData) (seasons : List ℤ)
    (provider : ℤ → Except String (List StationRecord)) :
    calculate_statistics loc seasons provider = none ↔
      gatherStats loc provider seasons = [] := by
  unfold calculate_statistics
  rcases h : gatherStats loc provider seasons with _ | ⟨a, l⟩ <;> simp [h]

theorem calcStats_inv (loc : LocationData) (seasons : List ℤ)
    (provider : ℤ → Except String (List StationRecord)) (r : StatsResult)
    (h : calculate_statistics loc seasons provider = some r) :
    r = { data := sortedSeries loc seasons provider
          total_all_avg :=
            avgOr0 ((sortedSeries loc seasons provider).map fun s => s.total_cycles)
          damaging_all_avg :=
            avgOr0 ((sortedSeries loc seasons provider).map fun s => s.damaging_cycles)
          total_all_cov :=
            covPct ((sortedSeries loc seasons provider).map fun s => s.total_cycles)
          damaging_all_cov :=
            covPct ((sortedSeries loc seasons provider).map fun s => s.damaging_cycles)
          total_5yr_avg :=
            avg5 ((sortedSeries loc seasons provider).map fun s => s.total_cycles)
          damaging_5yr_avg :=
            avg5 ((sortedSeries loc seasons provider).map fun s => s.damaging_cycles)
          total_5yr_cov :=
            covPct (recentWindow ((sortedSeries loc seasons provider).map fun s => s.total_cycles))
          damaging_5yr_cov :=
            covPct (recentWindow ((sortedSeries loc seasons provider).map fun s => s.damaging_cycles))
          years_available :=
            ((sortedSeries loc seasons provider).map fun s => s.total_cycles).length } := by
  have hne : (gatherStats loc provider seasons).isEmpty = false := by
    rcases hg : gatherStats loc provider seasons with _ | ⟨a, l⟩
    · exact absurd h (by simp [(calcStats_none_iff loc seasons provider).mpr hg])
    · rfl
  have h2 := calcStats_some loc seasons provider hne
  rw [h] at h2
  exact Option.some_inj.mp h2

theorem pickRecord_cons (loc : LocationData) (a : StationRecord)
    (l : List StationRecord) :
    pickRecord loc (a :: l) =
      some (if l.isEmpty then a else argminFirst (distSq loc) a l) := by
  by_cases h : l.isEmpty <;> simp [pickRecord, h]

/-- The contribution of one season to `location_stats`: `none` when the
season is skipped (load failure, empty data, or no exact match), and the
appended row otherwise. -/
def seasonEntry (loc : LocationData)
    (provider : ℤ → Except String (List StationRecord)) (season : ℤ) :
    Option SeasonStat :=
  match provider season with
  | Except.error _ => none
  | Except.ok season_data =>
    if season_data.isEmpty then none
    else
      match pickRecord loc (season_data.filter (matchesLocation loc)) with
      | none => none
      | some record =>
        some { season := season, total_cycles := record.total_cycles,
               damaging_cycles := record.damaging_cycles }

theorem gatherStats_cons (loc : LocationData)
    (provider : ℤ → Except String (List StationRecord)) (s : ℤ)
    (rest : List ℤ) :
    gatherStats loc provider (s :: rest) =
      match seasonEntry loc provider s with
      | none => gatherStats loc provider rest
      | some e => e :: gatherStats loc provider rest := by
  simp only [gatherStats, seasonEntry]
  rcases hp : provider s with e | data
  · rfl
  · by_cases hd : data.isEmpty
    · simp [hd]
    · rcases hf : data.filter (matchesLocation loc) with _ | ⟨a, l⟩
      · simp [hd, hf, pickRecord]
      · simp [hd, hf, pickRecord_cons]

theorem gatherStats_eq_filterMap (loc : LocationData)
    (provider : ℤ → Except String (List StationRecord)) (seasons : List ℤ) :
    gatherStats loc provider seasons =
      seasons.filterMap (seasonEntry loc provider) := by
  induction seasons with
  | nil => rfl
  | cons s rest ih =>
    rw [gatherStats_cons, List.filterMap_cons, ih]
    rcases seasonEntry loc provider s with _ | e <;> rfl

/-- Whether one season yields a matching record: the provider loads it,
the data is nonempty, and at least one record matches the normalized
`(state, county)` key. -/
def seasonContributes (loc : LocationData)
    (provider : ℤ → Except String (List StationRecord)) (season : ℤ) : Bool :=
  match provider season with
  | Except.error _ => false
  | Except.ok season_data =>
    !season_data.isEmpty && !(season_data.filter (matchesLocation loc)).isEmpty

theorem seasonEntry_isSome (loc : LocationData)
    (provider : ℤ → Except String (List StationRecord)) (season : ℤ) :
    (seasonEntry loc provider season).isSome =
      seasonContributes loc provider season := by
  unfold seasonEntry seasonContributes
  rcases hp : provider season with e | data
  · rfl
  · by_cases hd : data.isEmpty
    · simp [hd]
    · rcases hf : data.filter (matchesLocation loc) with _ | ⟨a, l⟩
      · simp [hd, hf, pickRecord]
      · simp [hd, hf, pickRecord_cons]

theorem gatherStats_length (loc : LocationData)
    (provider : ℤ → Except String (List StationRecord)) (seasons : List ℤ) :
    (gatherStats loc provider seasons).length =
      seasons.countP (seasonContributes loc provider) := by
  rw [gatherStats_eq_filterMap]
  induction seasons with
  | nil => rfl
  | cons s rest ih =>
    rw [List.filterMap_cons, List.countP_cons]
    rcases he : seasonEntry loc provider s with _ | entry
    · have : seasonContributes loc provider s = false := by
        rw [← seasonEntry_isSome, he]; rfl
      simp [this, ih]
    · have : seasonContributes loc provider s = true := by
        rw [← seasonEntry_isSome, he]; rfl
      simp [this, ih]

/-- Demonstration target location (Denver, Colorado). -/
def denverLoc : LocationData := ⟨"Colorado", "Denver", 39, -104⟩

/-- Demonstration Denver station record with the given cycle counts. -/
def denverRec (t d : ℚ) : StationRecord := ⟨"Colorado", "Denver", 39, -104, t, d⟩

/-- One-season demonstration provider: only season 2023 has data. -/
def oneSeasonProvider : ℤ → Except String (List StationRecord) :=
  fun s => if s = 2023 then Except.ok [denverRec 50 10] else Except.error "load failed"

/-- Two-season demonstration provider: season 2022 has the Denver record
`(50, 10)` and season 2023 the Denver record `(60, 12)`. -/
def twoSeasonProvider : ℤ → Except String (List StationRecord) :=
  fun s =>
    if s = 2022 then Except.ok [denverRec 50 10]
    else if s = 2023 then Except.ok [denverRec 60 12]
    else Except.error "load failed"

/-- C2: every coefficient of variation of the trend aggregation is the
guarded `covPct`: it is `0` whenever the window has fewer than two
points or the window's mean is `0`; when the guard passes, the divisor
is the mean, which is then nonzero, so the division
`stddev / mean * 100` never has a zero divisor.  The four COV fields of
`calculate_statistics` (full-history and most-recent-5 windows, for both
total and damaging cycles) are exactly `covPct` of the corresponding
window. -/
theorem C2_cov_guard :
    (∀ xs : List ℚ, xs.length < 2 ∨ meanQ xs = 0 → covPct xs = 0) ∧
    (∀ xs : List ℚ, 1 < xs.length ∧ 0 < meanQ xs →
      covPct xs = stdR xs / (meanQ xs : ℝ) * 100 ∧ (meanQ xs : ℝ) ≠ 0) ∧
    (∀ (loc : LocationData) (seasons : List ℤ)
      (provider : ℤ → Except String (List StationRecord)) (r : StatsResult),
      calculate_statistics loc seasons provider = some r →
      r.total_all_cov = covPct (r.data.map fun s => s.total_cycles) ∧
      r.damaging_all_cov = covPct (r.data.map fun s => s.damaging_cycles) ∧
      r.total_5yr_cov =
        covPct (recentWindow (r.data.map fun s => s.total_cycles)) ∧
      r.damaging_5yr_cov =
        covPct (recentWindow (r.data.map fun s => s.damaging_cycles))) := by
  refine ⟨fun xs h => ?_, fun xs h => ?_, fun loc seasons provider r h => ?_⟩
  · unfold covPct
    rw [if_neg]
    rintro ⟨h1, h2⟩
    rcases h with h | h
    · omega
    · rw [h] at h2
      exact lt_irrefl 0 h2
  · unfold covPct
    rw [if_pos h]
    exact ⟨rfl, by exact_mod_cast ne_of_gt h.2⟩
  · have hr := calcStats_inv loc seasons provider r h
    subst hr
    exact ⟨rfl, rfl, rfl, rfl⟩

/-- Witness for C2: a one-season aggregation has a single data point, so
its all-years total COV is `0`. -/
theorem C2_cov_guard_witness :
    Option.map (fun r => r.total_all_cov)
      (calculate_statistics denverLoc [2023] oneSeasonProvider) = some 0 := by
  have hg : gatherStats denverLoc oneSeasonProvider [2023] =
      [{ season := 2023, total_cycles := 50, damaging_cycles := 10 }] := by
    decide
  have hne : (gatherStats denverLoc oneSeasonProvider [2023]).isEmpty = false := by
    rw [hg]; rfl
  have hs : sortedSeries denverLoc [2023] oneSeasonProvider =
      [{ season := 2023, total_cycles := 50, damaging_cycles := 10 }] := by
    unfold sortedSeries
    rw [hg]; rfl
  have hcalc := calcStats_some denverLoc [2023] oneSeasonProvider hne
  have h0 := (C2_cov_guard.1
    ((sortedSeries denverLoc [2023] oneSeasonProvider).map fun s => s.total_cycles))
    (Or.inl (by rw [hs]; simp))
  rw [hcalc]
  simp [h0]

theorem covPct_pair_60_50 : covPct [60, 50] = 100 / 11 := by
  have hm : meanQ [60, 50] = 55 := by norm_num [meanQ]
  have hv : popVar [60, 50] = 25 := by
    unfold popVar
    rw [hm]
    norm_num [meanQ]
  unfold covPct
  rw [if_pos ⟨by norm_num, by rw [hm]; norm_num⟩]
  unfold stdR
  rw [hv, hm]
  have h5 : Real.sqrt ((25 : ℚ) : ℝ) = 5 := by
    have h52 : ((25 : ℚ) : ℝ) = (5 : ℝ) ^ 2 := by norm_num
    rw [h52, Real.sqrt_sq (by norm_num : (0 : ℝ) ≤ 5)]
  rw [h5]
  norm_num

/-- C3 as stated is false: for the two-season Denver scenario with
totals `[50, 60]` the code computes the COV with `np.std`, the
population standard deviation, so the total COV is
`(5 / 55) * 100 = 100/11 ≈ 9.09`, not `≈ 12.86` (the value the sample
standard deviation `sqrt(50) ≈ 7.07` would give); the computed value is
more than `1` away from `12.86`. -/
theorem C3_counterexample :
    Option.map (fun r => r.total_all_cov)
      (calculate_statistics denverLoc [2022, 2023] twoSeasonProvider) =
      some (100 / 11 : ℝ) ∧
    ¬ |(100 / 11 : ℝ) - 12.86| ≤ 1 := by
  constructor
  · have hg : gatherStats denverLoc twoSeasonProvider [2022, 2023] =
        [{ season := 2022, total_cycles := 50, damaging_cycles := 10 },
         { season := 2023, total_cycles := 60, damaging_cycles := 12 }] := by
      decide
    have hne : (gatherStats denverLoc twoSeasonProvider [2022, 2023]).isEmpty
        = false := by rw [hg]; rfl
    have hs : sortedSeries denverLoc [2022, 2023] twoSeasonProvider =
        [{ season := 2023, total_cycles := 60, damaging_cycles := 12 },
         { season := 2022, total_cycles := 50, damaging_cycles := 10 }] := by
      unfold sortedSeries
      rw [hg]
      decide
    have hcalc := calcStats_some denverLoc [2022, 2023] twoSeasonProvider hne
    have hmap : (sortedSeries denverLoc [2022, 2023] twoSeasonProvider).map
        (fun s => s.total_cycles) = [60, 50] := by rw [hs]; rfl
    rw [hcalc]
    simp [hmap, covPct_pair_60_50]
  · intro h
    rw [abs_le] at h
    have h1 := h.1
    norm_num at h1

/-- C3 amended: in the two-season Denver scenario with totals `[50, 60]`
and damaging cycles `[10, 12]`, `calculate_statistics` returns mean
total `55`, mean damaging `11`, and total COV
`(population stddev([50,60]) / 55) * 100 = 100/11 ≈ 9.09` (the code uses
`np.std`, the population standard deviation), which
`get_variability_category` classifies as Low. -/
theorem C3_denver_scenario :
    Option.map (fun r => (r.total_all_avg, r.damaging_all_avg, r.total_all_cov))
      (calculate_statistics denverLoc [2022, 2023] twoSeasonProvider) =
      some (55, 11, (100 / 11 : ℝ)) ∧
    get_variability_category (100 / 11 : ℝ) = ("Low", "🟢") := by
  constructor
  · have hg : gatherStats denverLoc twoSeasonProvider [2022, 2023] =
        [{ season := 2022, total_cycles := 50, damaging_cycles := 10 },
         { season := 2023, total_cycles := 60, damaging_cycles := 12 }] := by
      decide
    have hne : (gatherStats denverLoc twoSeasonProvider [2022, 2023]).isEmpty
        = false := by rw [hg]; rfl
    have hs : sortedSeries denverLoc [2022, 2023] twoSeasonProvider =
        [{ season := 2023, total_cycles := 60, damaging_cycles := 12 },
         { season := 2022, total_cycles := 50, damaging_cycles := 10 }] := by
      unfold sortedSeries
      rw [hg]
      decide
    have hcalc := calcStats_some denverLoc [2022, 2023] twoSeasonProvider hne
    have hmap : (sortedSeries denverLoc [2022, 2023] twoSeasonProvider).map
        (fun s => s.total_cycles) = [60, 50] := by rw [hs]; rfl
    have hmapd : (sortedSeries denverLoc [2022, 2023] twoSeasonProvider).map
        (fun s => s.damaging_cycles) = [12, 10] := by rw [hs]; rfl
    have havg : avgOr0 [(60 : ℚ), 50] = 55 := by norm_num [avgOr0, meanQ]
    have havgd : avgOr0 [(12 : ℚ), 10] = 11 := by norm_num [avgOr0, meanQ]
    rw [hcalc]
    simp [hmap, hmapd, havg, havgd, covPct_pair_60_50]
  · unfold get_variability_category
    rw [if_pos (by norm_num : (100 / 11 : ℝ) < 15)]

theorem recentWindow_eq_take (xs : List ℚ) : recentWindow xs = xs.take 5 := by
  unfold recentWindow
  split_ifs with h
  · rfl
  · exact (List.take_of_length_le (by omega)).symm

theorem avg5_eq_avgOr0_take (xs : List ℚ) : avg5 xs = avgOr0 (xs.take 5) := by
  by_cases h : 5 ≤ xs.length
  · have hl : (xs.take 5).length = 5 := by
      rw [List.length_take]
      omega
    unfold avg5 avgOr0
    rw [if_pos h, if_pos (by rw [hl]; norm_num)]
  · unfold avg5
    rw [if_neg h, List.take_of_length_le (by omega)]

/-- C4: in every result of `calculate_statistics`, the per-season series
is sorted descending by season and is a permutation of the gathered
points; the most-recent-5 window statistics are computed from the first
`min(5, n)` elements (`List.take 5`) of that sorted series; and when
fewer than 5 seasons have data the 5-year averages and COVs equal the
full-history ones. -/
theorem C4_sorted_window :
    ∀ (loc : LocationData) (seasons : List ℤ)
      (provider : ℤ → Except String (List StationRecord)) (r : StatsResult),
      calculate_statistics loc seasons provider = some r →
      List.Sorted seasonGE r.data ∧
      r.data.Perm (gatherStats loc provider seasons) ∧
      r.total_5yr_avg = avgOr0 ((r.data.map fun s => s.total_cycles).take 5) ∧
      r.damaging_5yr_avg =
        avgOr0 ((r.data.map fun s => s.damaging_cycles).take 5) ∧
      r.total_5yr_cov = covPct ((r.data.map fun s => s.total_cycles).take 5) ∧
      r.damaging_5yr_cov =
        covPct ((r.data.map fun s => s.damaging_cycles).take 5) ∧
      (r.years_available < 5 →
        r.total_5yr_avg = r.total_all_avg ∧
        r.damaging_5yr_avg = r.damaging_all_avg ∧
        r.total_5yr_cov = r.total_all_cov ∧
        r.damaging_5yr_cov = r.damaging_all_cov) := by
  intro loc seasons provider r h
  have hr := calcStats_inv loc seasons provider r h
  subst hr
  dsimp only
  refine ⟨List.sorted_insertionSort seasonGE _,
    List.perm_insertionSort seasonGE _,
    avg5_eq_avgOr0_take _, avg5_eq_avgOr0_take _,
    congrArg covPct (recentWindow_eq_take _),
    congrArg covPct (recentWindow_eq_take _), ?_⟩
  intro hy
  have hlt : ((sortedSeries loc seasons provider).map
      (fun s => s.total_cycles)).length < 5 := hy
  have hld : ((sortedSeries loc seasons provider).map
      (fun s => s.damaging_cycles)).length < 5 := by
    rw [List.length_map] at hlt ⊢
    exact hlt
  refine ⟨?_, ?_, ?_, ?_⟩
  · unfold avg5
    rw [if_neg (by omega)]
  · unfold avg5
    rw [if_neg (by omega)]
  · unfold recentWindow
    rw [if_neg (by omega)]
  · unfold recentWindow
    rw [if_neg (by omega)]

/-- Witness for C4: in the two-season Denver scenario the series is
sorted descending and, having fewer than five points, the 5-year total
average and COV coincide with the all-years ones. -/
theorem C4_sorted_window_witness :
    Option.map (fun r => (r.total_5yr_avg, r.total_5yr_cov))
        (calculate_statistics denverLoc [2022, 2023] twoSeasonProvider) =
      Option.map (fun r => (r.total_all_avg, r.total_all_cov))
        (calculate_statistics denverLoc [2022, 2023] twoSeasonProvider) ∧
    Option.map (fun r => decide (List.Sorted seasonGE r.data))
        (calculate_statistics denverLoc [2022, 2023] twoSeasonProvider) =
      some true := by
  have hg : gatherStats denverLoc twoSeasonProvider [2022, 2023] =
      [{ season := 2022, total_cycles := 50, damaging_cycles := 10 },
       { season := 2023, total_cycles := 60, damaging_cycles := 12 }] := by
    decide
  have hne : (gatherStats denverLoc twoSeasonProvider [2022, 2023]).isEmpty
      = false := by rw [hg]; rfl
  have hs : sortedSeries denverLoc [2022, 2023] twoSeasonProvider =
      [{ season := 2023, total_cycles := 60, damaging_cycles := 12 },
       { season := 2022, total_cycles := 50, damaging_cycles := 10 }] := by
    unfold sortedSeries
    rw [hg]
    decide
  have hcalc := calcStats_some denverLoc [2022, 2023] twoSeasonProvider hne
  have h4 := C4_sorted_window denverLoc [2022, 2023] twoSeasonProvider _ hcalc
  obtain ⟨hsorted, -, -, -, -, -, hlt⟩ := h4
  have hy : (((sortedSeries denverLoc [2022, 2023] twoSeasonProvider).map
      (fun s => s.total_cycles)).length : ℕ) < 5 := by
    rw [hs]
    norm_num
  have heq := hlt hy
  constructor
  · rw [hcalc]
    simp
    exact ⟨heq.1, heq.2.2.1⟩
  · rw [hcalc]
    simpa using hsorted

/-- C5: `calculate_statistics` returns the no-data sentinel `none`
exactly when zero of the input seasons contribute a record matching the
normalized `(state, county)` key, and otherwise `years_available` is the
count of contributing seasons (non-matching seasons are skipped
silently). -/
theorem C5_no_data_sentinel :
    ∀ (loc : LocationData) (seasons : List ℤ)
      (provider : ℤ → Except String (List StationRecord)),
      (calculate_statistics loc seasons provider = none ↔
        seasons.countP (seasonContributes loc provider) = 0) ∧
      ∀ r : StatsResult, calculate_statistics loc seasons provider = some r →
        r.years_available = seasons.countP (seasonContributes loc provider) := by
  intro loc seasons provider
  constructor
  · rw [calcStats_none_iff, ← gatherStats_length]
    exact ⟨fun h => by rw [h]; rfl, fun h => List.length_eq_zero.mp h⟩
  · intro r h
    have hr := calcStats_inv loc seasons provider r h
    subst hr
    dsimp only
    rw [List.length_map, ← gatherStats_length]
    unfold sortedSeries sortBySeasonDesc
    exact (List.perm_insertionSort seasonGE _).length_eq

/-- Three-season demonstration provider: 2023 has only a Weld county
record (no Denver match), 2022 and 2021 have Denver records. -/
def mixedProvider : ℤ → Except String (List StationRecord) :=
  fun s =>
    if s = 2023 then Except.ok [⟨"Colorado", "Weld", 40, -104, 30, 5⟩]
    else if s = 2022 then Except.ok [denverRec 50 10]
    else if s = 2021 then Except.ok [denverRec 60 12]
    else Except.error "load failed"

/-- Witness for C5: over seasons `[2023, 2022, 2021]` where only 2022
and 2021 match Denver, `years_available` is `2`. -/
theorem C5_no_data_sentinel_witness :
    [(2023 : ℤ), 2022, 2021].countP (seasonContributes denverLoc mixedProvider)
      = 2 ∧
    Option.map (fun r => r.years_available)
      (calculate_statistics denverLoc [2023, 2022, 2021] mixedProvider) =
      some 2 := by
  have hc : [(2023 : ℤ), 2022, 2021].countP
      (seasonContributes denverLoc mixedProvider) = 2 := by decide
  refine ⟨hc, ?_⟩
  have hg : gatherStats denverLoc mixedProvider [2023, 2022, 2021] =
      [{ season := 2022, total_cycles := 50, damaging_cycles := 10 },
       { season := 2021, total_cycles := 60, damaging_cycles := 12 }] := by
    decide
  have hne : (gatherStats denverLoc mixedProvider [2023, 2022, 2021]).isEmpty
      = false := by rw [hg]; rfl
  have hcalc := calcStats_some denverLoc [2023, 2022, 2021] mixedProvider hne
  have h5 := (C5_no_data_sentinel denverLoc [2023, 2022, 2021] mixedProvider).2
    _ hcalc
  rw [hcalc]
  simpa [hc] using h5

/-- C6: season iteration is failure-isolated: when the provider fails to
load some season, `calculate_statistics` returns exactly the result it
would return over the seasons list with that season removed; one
season's load failure never aborts the aggregation. -/
theorem C6_failure_isolated :
    ∀ (loc : LocationData)
      (provider : ℤ → Except String (List StationRecord))
      (s : ℤ) (msg : String) (pre post : List ℤ),
      provider s = Except.error msg →
      calculate_statistics loc (pre ++ s :: post) provider =
        calculate_statistics loc (pre ++ post) provider := by
  intro loc provider s msg pre post hs
  have hentry : seasonEntry loc provider s = none := by
    unfold seasonEntry
    rw [hs]
  have hg : gatherStats loc provider (pre ++ s :: post) =
      gatherStats loc provider (pre ++ post) := by
    rw [gatherStats_eq_filterMap, gatherStats_eq_filterMap,
      List.filterMap_append, List.filterMap_append, List.filterMap_cons,
      hentry]
  unfold calculate_statistics
  rw [hg]

/-- Witness for C6: season 2024 fails to load under the two-season
provider, so aggregating `[2024, 2022, 2023]` equals aggregating
`[2022, 2023]`. -/
theorem C6_failure_isolated_witness :
    calculate_statistics denverLoc [2024, 2022, 2023] twoSeasonProvider =
      calculate_statistics denverLoc [2022, 2023] twoSeasonProvider :=
  C6_failure_isolated denverLoc twoSeasonProvider 2024 "load failed" []
    [2022, 2023] rfl

theorem argminFirst_spec {α : Type} (f : α → ℚ) (x : α) (xs : List α) :
    (argminFirst f x xs = x ∨ argminFirst f x xs ∈ xs) ∧
    f (argminFirst f x xs) ≤ f x ∧
    ∀ y ∈ xs, f (argminFirst f x xs) ≤ f y := by
  induction xs generalizing x with
  | nil =>
    exact ⟨Or.inl rfl, le_refl _, fun y hy => absurd hy (List.not_mem_nil y)⟩
  | cons c cs ih =>
    have hstep : argminFirst f x (c :: cs) =
        argminFirst f (if f c < f x then c else x) cs := rfl
    rcases ih (if f c < f x then c else x) with ⟨hmem, hle, hall⟩
    refine ⟨?_, ?_, ?_⟩
    · rw [hstep]
      rcases hmem with hm | hm
      · rw [hm]
        split_ifs with h
        · exact Or.inr (List.mem_cons_self c cs)
        · exact Or.inl rfl
      · exact Or.inr (List.mem_cons_of_mem c hm)
    · rw [hstep]
      refine le_trans hle ?_
      split_ifs with h
      · exact le_of_lt h
      · exact le_refl _
    · intro y hy
      rw [hstep]
      rcases List.mem_cons.mp hy with rfl | hy2
      · refine le_trans hle ?_
        split_ifs with h
        · exact le_refl _
        · exact le_of_not_lt h
      · exact hall y hy2

/-- C7: when several records of one season match the target key, the
aggregation selects a record whose coordinates minimize the Euclidean
distance `sqrt((lat - target_lat)^2 + (lon - target_lon)^2)` to the
target, and the appended per-season entry takes its `(total, damaging)`
pair from that minimizing record. -/
theorem C7_closest_duplicate :
    (∀ (loc : LocationData) (exact_match : List StationRecord)
      (r : StationRecord),
      pickRecord loc exact_match = some r →
      r ∈ exact_match ∧
      ∀ r2 ∈ exact_match,
        Real.sqrt ((distSq loc r : ℚ) : ℝ) ≤
          Real.sqrt ((distSq loc r2 : ℚ) : ℝ)) ∧
    (∀ (loc : LocationData)
      (provider : ℤ → Except String (List StationRecord))
      (season : ℤ) (e : SeasonStat),
      seasonEntry loc provider season = some e →
      ∃ (season_data : List StationRecord) (record : StationRecord),
        provider season = Except.ok season_data ∧
        pickRecord loc (season_data.filter (matchesLocation loc)) =
          some record ∧
        e.total_cycles = record.total_cycles ∧
        e.damaging_cycles = record.damaging_cycles) := by
  constructor
  · intro loc exact_match r h
    cases exact_match with
    | nil => cases h
    | cons a l =>
      rw [pickRecord_cons] at h
      have hr : r = if l.isEmpty then a else argminFirst (distSq loc) a l :=
        (Option.some_inj.mp h).symm
      have key : r ∈ a :: l ∧ ∀ r2 ∈ a :: l, distSq loc r ≤ distSq loc r2 := by
        by_cases hl : l.isEmpty
        · have hl2 : l = [] := by
            cases l
            · rfl
            · cases hl
          subst hl2
          simp only [List.isEmpty_nil, if_true] at hr
          subst hr
          refine ⟨List.mem_cons_self r [], ?_⟩
          intro r2 h2
          rcases List.mem_cons.mp h2 with rfl | h3
          · exact le_refl _
          · exact absurd h3 (List.not_mem_nil r2)
        · rw [if_neg hl] at hr
          subst hr
          rcases argminFirst_spec (distSq loc) a l with ⟨hmem, hle, hall⟩
          refine ⟨?_, ?_⟩
          · rcases hmem with hm | hm
            · rw [hm]
              exact List.mem_cons_self a l
            · exact List.mem_cons_of_mem a hm
          · intro r2 h2
            rcases List.mem_cons.mp h2 with rfl | h3
            · exact hle
            · exact hall r2 h3
      exact ⟨key.1, fun r2 h2 =>
        Real.sqrt_le_sqrt (by exact_mod_cast key.2 r2 h2)⟩
  · intro loc provider season e h
    unfold seasonEntry at h
    split at h
    · cases h
    next data hp =>
      split at h
      · cases h
      · split at h
        · cases h
        next record hpick =>
          have he := (Option.some_inj.mp h).symm
          subst he
          exact ⟨data, record, hp, hpick, rfl, rfl⟩

/-- A second Denver record in the same season, farther from the
target. -/
def dupFar : StationRecord := ⟨"Colorado", "Denver", 41, -102, 70, 20⟩

/-- Witness for C7: between the two duplicate Denver records, selection
picks the one at the target coordinates, whose distance is minimal. -/
theorem C7_closest_duplicate_witness :
    pickRecord denverLoc [dupFar, denverRec 50 10] = some (denverRec 50 10) ∧
    Real.sqrt ((distSq denverLoc (denverRec 50 10) : ℚ) : ℝ) ≤
      Real.sqrt ((distSq denverLoc dupFar : ℚ) : ℝ) := by
  have hnear : distSq denverLoc (denverRec 50 10) = 0 := by
    norm_num [distSq, denverRec, denverLoc]
  have hfar : distSq denverLoc dupFar = 8 := by
    norm_num [distSq, dupFar, denverLoc]
  have hp : pickRecord denverLoc [dupFar, denverRec 50 10] =
      some (denverRec 50 10) := by
    rw [pickRecord_cons]
    simp only [List.isEmpty_cons, argminFirst, List.foldl_cons, List.foldl_nil,
      hnear, hfar]
    norm_num
  exact ⟨hp, (C7_closest_duplicate.1 denverLoc [dupFar, denverRec 50 10]
    (denverRec 50 10) hp).2 dupFar (List.mem_cons_self dupFar _)⟩

/-- C8: aggregation is deterministic: with the same target location, the
same seasons list and an unchanged season-data provider, two runs of
`calculate_statistics` return identical results. -/
theorem C8_deterministic :
    ∀ (loc : LocationData) (seasons : List ℤ)
      (p1 p2 : ℤ → Except String (List StationRecord)),
      (∀ s, p1 s = p2 s) →
      calculate_statistics loc seasons p1 =
        calculate_statistics loc seasons p2 := by
  intro loc seasons p1 p2 h
  rw [funext h]

/-- Witness for C8: two runs over the unchanged two-season provider
agree. -/
theorem C8_deterministic_witness :
    calculate_statistics denverLoc [2022, 2023] twoSeasonProvider =
      calculate_statistics denverLoc [2022, 2023] twoSeasonProvider :=
  C8_deterministic denverLoc [2022, 2023] twoSeasonProvider twoSeasonProvider
    (fun _ => rfl)

/-- Modelled from the spec: the location resolver `find_nearest_location`
is imported from `coordinate_matcher`, a module that is not among the
source files.  Spec section 4.1: compute the distance in kilometers from
the target to every candidate (great-circle or an equivalent
approximation; the concrete formula is taken as the parameter `dist`),
select the minimum deterministically (the first minimizer), and return
the no-match sentinel `none` when there is no candidate or the minimum
exceeds `max_radius_km` (the application calls it with the default of
50 km); otherwise return the selected record with its distance. -/
def find_nearest_location (dist : StationRecord → ℚ)
    (candidates : List StationRecord) (max_radius_km : ℚ) :
    Option (StationRecord × ℚ) :=
  match candidates with
  | [] => none
  | c :: cs =>
    if max_radius_km < dist (argminFirst dist c cs) then none
    else some (argminFirst dist c cs, dist (argminFirst dist c cs))

/-- C9: the resolver returns the no-match sentinel (a value, not an
exception) when the candidate set is empty or every candidate lies
farther than `max_radius_km`, rather than returning a distant record. -/
theorem C9_no_match_sentinel :
    ∀ (dist : StationRecord → ℚ) (candidates : List StationRecord)
      (max_radius_km : ℚ),
      candidates = [] ∨ (∀ c ∈ candidates, max_radius_km < dist c) →
      find_nearest_location dist candidates max_radius_km = none := by
  intro dist candidates maxr h
  rcases h with h | h
  · subst h
    rfl
  · cases candidates with
    | nil => rfl
    | cons c cs =>
      show (if maxr < dist (argminFirst dist c cs) then none
        else some (argminFirst dist c cs, dist (argminFirst dist c cs)))
        = none
      rw [if_pos]
      rcases (argminFirst_spec dist c cs).1 with hm | hm
      · rw [hm]
        exact h c (List.mem_cons_self c cs)
      · exact h _ (List.mem_cons_of_mem c hm)

/-- Witness for C9: a single candidate 100 km away exceeds the default
50 km radius, so the resolver reports no match. -/
theorem C9_no_match_sentinel_witness :
    find_nearest_location (fun _ => 100) [dupFar] 50 = none :=
  C9_no_match_sentinel (fun _ => 100) [dupFar] 50
    (Or.inr (fun c _ => by norm_num))

/-- Case-insensitive substring containment: some suffix of the
uppercased haystack starts with the uppercased pattern.  This is the
semantics of pandas `Series.str.contains(pat, case=False, na=False)` for
a pattern free of regular-expression metacharacters (the state names the
UI offers come from the dataset's State column). -/
def strContainsCI (hay pat : String) : Bool :=
  (List.range (hay.toList.length + 1)).any
    (fun i => (asciiUpper pat).toList.isPrefixOf
      ((asciiUpper hay).toList.drop i))

/-- The pre-resolution state filter of `main` (line 254):
`search_data[search_data['State'].str.contains(state_normalized,
case=False, na=False)]`. -/
def filterByState (search_data : List StationRecord)
    (state_normalized : String) : List StationRecord :=
  search_data.filter (fun r => strContainsCI r.state state_normalized)

/-- C10: the pre-resolution state filter selects records by
case-insensitive substring containment of the selected state in the
record's State field, not by exact equality: a record survives the
filter exactly when its State contains the selection as a
case-insensitive substring, and in particular "West Virginia" records
are kept for the selection "Virginia" although the strings differ. -/
theorem C10_state_filter :
    (∀ (search_data : List StationRecord) (s : String) (r : StationRecord),
      r ∈ filterByState search_data s ↔
        r ∈ search_data ∧ strContainsCI r.state s = true) ∧
    strContainsCI "West Virginia" "Virginia" = true ∧
    "West Virginia" ≠ "Virginia" := by
  refine ⟨fun search_data s r => ?_, by decide, by decide⟩
  simp [filterByState, List.mem_filter]

/-- A West Virginia station record. -/
def wvRec : StationRecord := ⟨"West Virginia", "Marion", 39, -80, 40, 8⟩

/-- Witness for C10: the West Virginia record is kept as a resolver
candidate when the selected state is "Virginia". -/
theorem C10_state_filter_witness :
    wvRec ∈ filterByState [wvRec] "Virginia" :=
  (C10_state_filter.1 [wvRec] "Virginia" wvRec).mpr
    ⟨List.mem_cons_self wvRec [], by decide⟩

/-- Witness for C1: the classifier at `7` returns Low via the band
characterization. -/
theorem C1_variability_bands_witness :
    (get_variability_category (7 : ℚ)).1 = "Low" :=
  ((C1_variability_bands.1 7).1).mpr (by norm_num)
